import Mathlib

/-!
Verification of the provisioning/lifecycle orchestrator of a Redshift
data-warehouse repository.  The Python sources (`src/cluster.py`,
`src/iam.py`, `src/utils.py`, `bin/iac.py`, `bin/status.py`,
`aws_utils.py`) are shallowly embedded: each method becomes an executable
Lean function over an explicit control-plane state, returning a trace of
control-plane calls together with either a result or a Python-style error.
-/

namespace DWH

/-! ## Configuration file model

The repository persists state in an INI file manipulated with Python's
`configparser`.  A file is a list of sections, each a list of
option/value pairs.  `configparser` stores option names lower-cased
(its default `optionxform`) and looks options up case-insensitively,
while section names are case-sensitive. -/

/-- Option/value assignments of one section; keys are stored lower-cased. -/
abbrev Assign := List (String × String)

/-- A parsed configuration file: section name to assignments. -/
abbrev CfgFile := List (String × Assign)

/-- ASCII lower-casing of one character. -/
def lowerChar (c : Char) : Char :=
  if 65 ≤ c.toNat ∧ c.toNat ≤ 90 then Char.ofNat (c.toNat + 32) else c

/-- The default option transform of `configparser`: lower-casing. -/
def optionxform (s : String) : String := ⟨s.data.map lowerChar⟩

/-- Decimal digit value of a character, when it is one. -/
def digitVal (c : Char) : Option Nat :=
  if 48 ≤ c.toNat ∧ c.toNat ≤ 57 then some (c.toNat - 48) else none

/-- Embedding of Python `int()` on the decimal strings the configuration
holds: `none` models the `ValueError` on a non-numeric string. -/
def strToNat? (s : String) : Option Nat :=
  match s.data with
  | [] => none
  | ds => ds.foldl (fun acc c => acc.bind fun n => (digitVal c).map fun d => n * 10 + d)
      (some 0)

/-- Association-list lookup on string keys. -/
def lookupKV {β : Type} (l : List (String × β)) (k : String) : Option β :=
  match l with
  | [] => none
  | (k₀, v) :: rest => if k₀ = k then some v else lookupKV rest k

/-- Embedding of `ConfigParser.get(sec, opt)`: `none` models the
`NoSectionError` / `NoOptionError` exceptions. -/
def cfgRead (cfg : CfgFile) (sec opt : String) : Option String :=
  (lookupKV cfg sec).bind fun a => lookupKV a (optionxform opt)

/-- Replace the value of key `k` in an assignment list, or append it. -/
def setAssign (a : Assign) (k v : String) : Assign :=
  match a with
  | [] => [(k, v)]
  | (k₀, v₀) :: rest =>
      if k₀ = k then (k₀, v) :: rest else (k₀, v₀) :: setAssign rest k v

/-- Update one section of the file, leaving the others untouched. -/
def setSectionEntry (sec opt v : String) (p : String × Assign) : String × Assign :=
  if p.1 = sec then (p.1, setAssign p.2 (optionxform opt) v) else p

/-- Embedding of `ConfigParser.set(sec, opt, v)` followed by writing the
file back: `none` models `NoSectionError` when the section is absent. -/
def cfgSet (cfg : CfgFile) (sec opt v : String) : Option CfgFile :=
  if (lookupKV cfg sec).isSome then some (cfg.map (setSectionEntry sec opt v))
  else none

/-- Database-section projection returned by `utils.get_db_config`. -/
structure DbConfig where
  name : String
  user : String
  password : String
  port : String
  host : String
deriving Repr, DecidableEq

/-- Embedding of `utils.get_db_config`: reads NAME, USER, PASSWORD, PORT,
HOST from section `DB`. -/
def get_db_config (cfg : CfgFile) : Option DbConfig := do
  let n ← cfgRead cfg "DB" "NAME"
  let u ← cfgRead cfg "DB" "USER"
  let pw ← cfgRead cfg "DB" "PASSWORD"
  let po ← cfgRead cfg "DB" "PORT"
  let h ← cfgRead cfg "DB" "HOST"
  pure ⟨n, u, pw, po, h⟩

/-- Cluster-section projection returned by `utils.get_cluster_config`. -/
structure ClusterConfig where
  clusterType : String
  numNodes : String
  nodeType : String
  clusterIdentifier : String
deriving Repr, DecidableEq

/-- Embedding of `utils.get_cluster_config`. -/
def get_cluster_config (cfg : CfgFile) : Option ClusterConfig := do
  let ct ← cfgRead cfg "CLUSTER" "CLUSTER_TYPE"
  let nn ← cfgRead cfg "CLUSTER" "NUM_NODES"
  let nt ← cfgRead cfg "CLUSTER" "NODE_TYPE"
  let ci ← cfgRead cfg "CLUSTER" "CLUSTER_IDENTIFIER"
  pure ⟨ct, nn, nt, ci⟩

/-- Embedding of `utils.get_role_name_arn`: NAME and ARN of section
`IAM_ROLE`. -/
def get_role_name_arn (cfg : CfgFile) : Option (String × String) := do
  let n ← cfgRead cfg "IAM_ROLE" "NAME"
  let a ← cfgRead cfg "IAM_ROLE" "ARN"
  pure (n, a)

/-- Embedding of `utils.get_auth`: KEY, SECRET, REGION of section `AWS`;
needed by every `utils.get_client` / `utils.get_resource` call. -/
def get_auth (cfg : CfgFile) : Option (String × String × String) := do
  let k ← cfgRead cfg "AWS" "KEY"
  let s ← cfgRead cfg "AWS" "SECRET"
  let r ← cfgRead cfg "AWS" "REGION"
  pure (k, s, r)

/-! ## Control-plane model

The AWS control plane is an external collaborator (spec §6): each
operation returns success, a typed already-exists / already-absent
condition, or an opaque provider error.  Propagation delay (spec §3)
is modelled by keeping accepted policy attachments (`attached`)
separate from attachments visible to enumeration (`attachVisible`);
only environment progress, never a request, promotes one to the other. -/

/-- An IAM role resource held by the control plane. -/
structure RoleRes where
  name : String
  arn : String
deriving Repr, DecidableEq

/-- Cluster states observable through `describe_clusters` (spec §3). -/
inductive ClusterStatus
  | creating
  | available
  | pausing
  | paused
  | resuming
  | deleting
deriving Repr, DecidableEq

/-- A Redshift cluster resource held by the control plane, with the
fields of the `create_cluster` request. -/
structure ClusterRes where
  identifier : String
  status : ClusterStatus
  endpoint : Option String
  dbName : String
  masterUser : String
  masterPassword : String
  port : Nat
  numNodes : Nat
  nodeType : String
  clusterType : String
  iamRoles : List String
  hasBackup : Bool
deriving Repr, DecidableEq

/-- Control-plane state. -/
structure Aws where
  roles : List RoleRes
  policies : List String
  attached : List (String × String)
  attachVisible : List (String × String)
  clusters : List ClusterRes
  snapshots : List (String × String)
  ingressPorts : List Nat
deriving Repr, DecidableEq

/-- Control-plane calls, recorded as a trace by every embedded method. -/
inductive Event
  | createRole (name : String)
  | getRole (name : String)
  | waitRoleExists (name : String)
  | attachPolicy (role policy : String)
  | detachPolicy (role policy : String)
  | listAttachedRoles (policy : String)
  | waitPolicyExists (policy : String)
  | deleteRole (name : String)
  | createCluster (ci dbName user password : String) (port numNodes : Nat)
      (nodeType clusterType : String) (iamRoles : List String)
  | describeClusters (ci : String)
  | waitClusterAvailable (ci : String)
  | waitClusterDeleted (ci : String)
  | deleteCluster (ci : String)
  | pauseCluster (ci : String)
  | resumeCluster (ci : String)
  | createSnapshot (snap ci : String)
  | waitSnapshotAvailable (snap ci : String)
  | authorizeIngress (port : Nat)
deriving Repr, DecidableEq

/-- Python-level failures surfaced by the embedded methods. -/
inductive PyError
  | valueError (msg : String)
  | nameError (name : String)
  | keyError (key : String)
  | clientError (code : String)
  | exceptionMsg (msg : String)
  | noSection (sec : String)
  | noOption (sec opt : String)
  | waiterTimeout (which : String)
deriving Repr, DecidableEq

/-- The ARN the control plane assigns to a newly created role
(account id arbitrary but fixed; the ARN is never empty). -/
def mkRoleArn (name : String) : String :=
  "arn:aws:iam::123456789012:role/" ++ name

/-- The endpoint address the control plane assigns to an available
cluster (never empty). -/
def mkEndpoint (ci : String) : String :=
  ci ++ ".abc123xyz.us-west-2.redshift.amazonaws.com"

/-- State after the control plane stores a newly created role. -/
def roleCreated (s : Aws) (name : String) : Aws :=
  { s with roles := s.roles ++ [⟨name, mkRoleArn name⟩] }

/-- Control-plane `create_role`: typed already-exists condition when the
name is taken, otherwise the role is stored with a fresh non-empty ARN. -/
def cpCreateRole (s : Aws) (name : String) : Except String (RoleRes × Aws) :=
  if s.roles.any (fun r => r.name = name) then
    .error "EntityAlreadyExists"
  else .ok (⟨name, mkRoleArn name⟩, roleCreated s name)

/-- Control-plane `get_role`. -/
def cpGetRole (s : Aws) (name : String) : Except String RoleRes :=
  match s.roles.find? (fun r => r.name = name) with
  | some r => .ok r
  | none => .error "NoSuchEntity"

/-- Control-plane `attach_role_policy`; attaching an attached grant is a
no-op success. -/
def cpAttachRolePolicy (s : Aws) (role policy : String) : Aws :=
  if (role, policy) ∈ s.attached then s
  else { s with attached := s.attached ++ [(role, policy)] }

/-- Control-plane `detach_role_policy`: removes an accepted attachment;
`NoSuchEntity` when the grant is not attached. -/
def cpDetachRolePolicy (s : Aws) (role policy : String) : Except String Aws :=
  if (role, policy) ∈ s.attached then
    .ok { s with attached := s.attached.filter (fun p => p ≠ (role, policy)) }
  else .error "NoSuchEntity"

/-- Control-plane `delete_role`: fails while a grant is still attached
(spec §4.1: deletion with an attached grant fails at the control plane),
and with `NoSuchEntity` when the role is absent. -/
def cpDeleteRole (s : Aws) (name : String) : Except String Aws :=
  if s.roles.any (fun r => r.name = name) then
    if s.attached.any (fun p => p.1 = name) then .error "DeleteConflict"
    else .ok { s with roles := s.roles.filter (fun r => r.name ≠ name) }
  else .error "NoSuchEntity"

/-- State after a cluster resource is stored by the control plane. -/
def clusterAdded (s : Aws) (c : ClusterRes) : Aws :=
  { s with clusters := s.clusters ++ [c] }

/-- State after inbound TCP access on a port is authorized. -/
def ingressAdded (s : Aws) (port : Nat) : Aws :=
  { s with ingressPorts := s.ingressPorts ++ [port] }

/-- Control-plane `create_cluster`: typed already-exists condition when
the identifier is taken; a new cluster starts `creating`, endpoint not
yet assigned, with no backup snapshot. -/
def cpCreateCluster (s : Aws) (c : ClusterRes) : Except String Aws :=
  if s.clusters.any (fun k => k.identifier = c.identifier) then
    .error "ClusterAlreadyExistsFault"
  else .ok (clusterAdded s c)

/-- Control-plane `describe_clusters` for one identifier. -/
def cpDescribeCluster (s : Aws) (ci : String) : Except String ClusterRes :=
  match s.clusters.find? (fun k => k.identifier = ci) with
  | some k => .ok k
  | none => .error "ClusterNotFoundFault"

/-- Control-plane `pause_cluster`: rejected with the distinguishable
backup-required condition when the cluster has no recent backup. -/
def cpPauseCluster (s : Aws) (ci : String) : Except String Aws :=
  match s.clusters.find? (fun k => k.identifier = ci) with
  | none => .error "ClusterNotFoundFault"
  | some k =>
      if k.hasBackup then
        .ok { s with clusters := s.clusters.map fun c =>
          if c.identifier = ci then { c with status := .pausing } else c }
      else .error "InvalidClusterStateFault"

/-- Control-plane `create_cluster_snapshot`: records the snapshot and
marks the cluster as backed up once the snapshot completes. -/
def cpCreateSnapshot (s : Aws) (snap ci : String) : Except String Aws :=
  if s.clusters.any (fun k => k.identifier = ci) then
    .ok { s with snapshots := s.snapshots ++ [(snap, ci)] }
  else .error "ClusterNotFoundFault"

/-- Control-plane `delete_cluster`: typed not-found condition when the
cluster is absent, otherwise deletion begins. -/
def cpDeleteCluster (s : Aws) (ci : String) : Except String Aws :=
  if s.clusters.any (fun k => k.identifier = ci) then
    .ok { s with clusters := s.clusters.map fun c =>
      if c.identifier = ci then { c with status := .deleting } else c }
  else .error "ClusterNotFoundFault"

/-! Waiters.  A boto3 waiter polls a describe call until its condition
holds.  A successful return therefore witnesses the condition; the
state transition the environment performs while the caller is blocked
(cluster becoming available, deletion completing, snapshot finishing)
is realised at the wait. -/

/-- Waiter `role_exists`. -/
def waiterRoleExists (s : Aws) (name : String) : Except PyError Aws :=
  if s.roles.any (fun r => r.name = name) then .ok s
  else .error (.waiterTimeout "role_exists")

/-- Waiter `policy_exists`: polls `GetPolicy` on the given policy ARN
only — it takes no role name, so it observes nothing about attachments. -/
def waiterPolicyExists (s : Aws) (policyArn : String) : Except PyError Aws :=
  if policyArn ∈ s.policies then .ok s
  else .error (.waiterTimeout "policy_exists")

/-- The environment update one cluster undergoes while the
`cluster_available` waiter blocks: it becomes available with its
endpoint assigned. -/
def availAt (ci : String) (k : ClusterRes) : ClusterRes :=
  if k.identifier = ci then
    { k with status := .available, endpoint := some (mkEndpoint ci) }
  else k

/-- State once the `cluster_available` wait returns. -/
def clustersAvail (s : Aws) (ci : String) : Aws :=
  { s with clusters := s.clusters.map (availAt ci) }

/-- Waiter `cluster_available`: blocks until the cluster is `available`;
the environment finishes provisioning and assigns the endpoint. -/
def waiterClusterAvailable (s : Aws) (ci : String) : Except PyError Aws :=
  if s.clusters.any (fun k => k.identifier = ci) then .ok (clustersAvail s ci)
  else .error (.waiterTimeout "cluster_available")

/-- Waiter `cluster_deleted`: blocks until the resource is fully gone;
the environment completes the deletion. -/
def waiterClusterDeleted (s : Aws) (ci : String) : Aws :=
  { s with clusters := s.clusters.filter (fun c => c.identifier ≠ ci) }

/-- Waiter `snapshot_available`: blocks until the snapshot completes;
the cluster then counts as having a recent backup. -/
def waiterSnapshotAvailable (s : Aws) (snap ci : String) : Except PyError Aws :=
  if (snap, ci) ∈ s.snapshots then
    .ok { s with clusters := s.clusters.map fun c =>
      if c.identifier = ci then { c with hasBackup := true } else c }
  else .error (.waiterTimeout "snapshot_available")

/-! ## Role lifecycle (embedding of `src/iam.py`, class `RedshiftRole`) -/

/-- Object state of a `RedshiftRole` instance: `__init__` reads NAME and
ARN from the `IAM_ROLE` section; the read policy ARN is a fixed constant. -/
structure RedshiftRole where
  name : String
  arn : String
deriving Repr, DecidableEq

/-- The fixed read-capability identifier `self.read_policy_arn`. -/
def readPolicyArn : String := "arn:aws:iam::aws:policy/AmazonS3ReadOnlyAccess"

/-- Embedding of `RedshiftRole.__init__`: requires the `AWS` auth section
(for `get_client`) and the `IAM_ROLE` section to be readable. -/
def RedshiftRole.mkFromCfg (cfg : CfgFile) : Option RedshiftRole := do
  let (n, a) ← get_role_name_arn cfg
  let _ ← get_auth cfg
  pure ⟨n, a⟩

/-- Embedding of `RedshiftRole.create`: `EntityAlreadyExists` is caught
and logged, returning Python's implicit `None` (here `none`); a true
creation returns the response. -/
def RedshiftRole.create (r : RedshiftRole) (s : Aws) :
    List Event × Except PyError (Option RoleRes × Aws) :=
  match cpCreateRole s r.name with
  | .ok (res, s₁) => ([.createRole r.name], .ok (some res, s₁))
  | .error "EntityAlreadyExists" => ([.createRole r.name], .ok (none, s))
  | .error e => ([.createRole r.name], .error (.clientError e))

/-- Embedding of `RedshiftRole.wait_for_role`. -/
def RedshiftRole.wait_for_role (r : RedshiftRole) (s : Aws) :
    List Event × Except PyError Aws :=
  ([.waitRoleExists r.name], waiterRoleExists s r.name)

/-- Embedding of `RedshiftRole.allow_read_access`. -/
def RedshiftRole.allow_read_access (r : RedshiftRole) (s : Aws) :
    List Event × Except PyError Aws :=
  ([.attachPolicy r.name readPolicyArn], .ok (cpAttachRolePolicy s r.name readPolicyArn))

/-- Embedding of `RedshiftRole.wait_for_policy`: the waiter is given only
`PolicyArn=self.read_policy_arn`. -/
def RedshiftRole.wait_for_policy (_r : RedshiftRole) (s : Aws) :
    List Event × Except PyError Aws :=
  ([.waitPolicyExists readPolicyArn], waiterPolicyExists s readPolicyArn)

/-- Embedding of `RedshiftRole.write_arn_to_cfg`: `get_role`, then set
`IAM_ROLE`/`ARN` in the configuration file and write it back. -/
def RedshiftRole.write_arn_to_cfg (r : RedshiftRole) (s : Aws) (cfg : CfgFile) :
    List Event × Except PyError CfgFile :=
  match cpGetRole s r.name with
  | .error e => ([.getRole r.name], .error (.clientError e))
  | .ok res =>
      match cfgSet cfg "IAM_ROLE" "ARN" res.arn with
      | some cfg₁ => ([.getRole r.name], .ok cfg₁)
      | none => ([.getRole r.name], .error (.noSection "IAM_ROLE"))

/-- The detach-visibility polling loop of `RedshiftRole.delete`:
`for n in range(31)` checks whether the role still appears among the
policy's attached roles (`sched n` is the listing observed at check
`n`), sleeping 30s between checks and raising after the last one. -/
def detachWaitFrom (sched : Nat → Bool) (n : Nat) : List Event × Except PyError Unit :=
  if n < 31 then
    if sched n then
      if n < 30 then
        (Event.listAttachedRoles readPolicyArn :: (detachWaitFrom sched (n + 1)).1,
         (detachWaitFrom sched (n + 1)).2)
      else
        ([.listAttachedRoles readPolicyArn],
         .error (.exceptionMsg "Policy took too long to detach."))
    else ([.listAttachedRoles readPolicyArn], .ok ())
  else ([], .ok ())
termination_by 31 - n

/-- Embedding of `RedshiftRole.delete`: detach the grant (a
`NoSuchEntity` client error is treated as already-detached success; any
other client error re-raises), then poll until the detachment is
visible, then delete the identity.  `sched n` models the eventually
consistent listing `policy.attached_roles.all()` at the nth check:
`true` means the role is still listed. -/
def RedshiftRole.delete (r : RedshiftRole) (s : Aws) (sched : Nat → Bool) :
    List Event × Except PyError Aws :=
  let detachEv := Event.detachPolicy r.name readPolicyArn
  let deletePart : Aws → List Event × Except PyError Aws := fun s₁ =>
    match cpDeleteRole s₁ r.name with
    | .ok s₂ => ([.deleteRole r.name], .ok s₂)
    | .error e => ([.deleteRole r.name], .error (.clientError e))
  match cpDetachRolePolicy s r.name readPolicyArn with
  | .error "NoSuchEntity" =>
      (detachEv :: (deletePart s).1, (deletePart s).2)
  | .error e => ([detachEv], .error (.clientError e))
  | .ok s₁ =>
      match (detachWaitFrom sched 0).2 with
      | .ok _ =>
          (detachEv :: (detachWaitFrom sched 0).1 ++ (deletePart s₁).1, (deletePart s₁).2)
      | .error e => (detachEv :: (detachWaitFrom sched 0).1, .error e)

/-! ## Cluster lifecycle (embedding of `src/cluster.py`, class `Cluster`) -/

/-- Object state of a `Cluster` instance: `__init__` loads the cluster
and database sections and normalises an empty configured ARN to `None`. -/
structure ClusterObj where
  config : ClusterConfig
  db_config : DbConfig
  role_arn : Option String
deriving Repr, DecidableEq

/-- Python truthiness of `self.role_arn` (an optional string). -/
def truthyOpt : Option String → Bool
  | none => false
  | some s => !(s = "")

/-- Embedding of `Cluster.__init__`. -/
def ClusterObj.mkFromCfg (cfg : CfgFile) : Option ClusterObj := do
  let _ ← get_auth cfg
  let cc ← get_cluster_config cfg
  let db ← get_db_config cfg
  let (_, a) ← get_role_name_arn cfg
  pure ⟨cc, db, if a = "" then none else some a⟩

/-- Embedding of `Cluster.set_role_arn`: raises `ValueError` on a falsy
ARN. -/
def ClusterObj.set_role_arn (c : ClusterObj) (a : String) : Except PyError ClusterObj :=
  if a = "" then .error (.valueError "arn cannot be empty string")
  else .ok { c with role_arn := some a }

/-- The `create_cluster` request assembled by `Cluster.create` from the
cluster and database configuration sections and the bound role ARN. -/
def clusterReq (c : ClusterObj) (arn : String) (port numNodes : Nat) : ClusterRes :=
  { identifier := c.config.clusterIdentifier
    status := .creating
    endpoint := none
    dbName := c.db_config.name
    masterUser := c.db_config.user
    masterPassword := c.db_config.password
    port := port
    numNodes := numNodes
    nodeType := c.config.nodeType
    clusterType := c.config.clusterType
    iamRoles := [arn]
    hasBackup := false }

/-- The trace entry recording that `create_cluster` request. -/
def createClusterEvent (c : ClusterObj) (arn : String) (port numNodes : Nat) : Event :=
  .createCluster c.config.clusterIdentifier c.db_config.name c.db_config.user
    c.db_config.password port numNodes c.config.nodeType c.config.clusterType [arn]

/-- The ARN-resolution prologue of `Cluster.create`: when `self.role_arn`
is falsy, re-read the persisted ARN and pass it through `set_role_arn`,
which raises `ValueError` on an empty string. -/
def resolveArn (c : ClusterObj) (cfg : CfgFile) : Except PyError ClusterObj :=
  if truthyOpt c.role_arn then .ok c
  else
    match get_role_name_arn cfg with
    | none => .error (.noOption "IAM_ROLE" "ARN")
    | some (_, a) => c.set_role_arn a

/-- Embedding of `Cluster.create`: resolve a missing role ARN from the
configuration file (raising `ValueError` when it is empty), evaluate the
request arguments (`int(PORT)`, `int(NUM_NODES)`), issue
`create_cluster`, and treat `ClusterAlreadyExistsFault` as a logged
no-op returning `None`. -/
def ClusterObj.create (c : ClusterObj) (cfg : CfgFile) (s : Aws) :
    List Event × Except PyError (Option ClusterRes × Aws) :=
  match resolveArn c cfg with
  | .error e => ([], .error e)
  | .ok c₁ =>
      match strToNat? c₁.db_config.port, strToNat? c₁.config.numNodes with
      | none, _ => ([], .error (.valueError "invalid literal for int"))
      | _, none => ([], .error (.valueError "invalid literal for int"))
      | some port, some numNodes =>
          let arn := c₁.role_arn.getD ""
          let req := clusterReq c₁ arn port numNodes
          let ev := createClusterEvent c₁ arn port numNodes
          match cpCreateCluster s req with
          | .ok s₁ => ([ev], .ok (some req, s₁))
          | .error "ClusterAlreadyExistsFault" => ([ev], .ok (none, s))
          | .error e => ([ev], .error (.clientError e))

/-- Embedding of `Cluster.properties`: `describe_clusters` projected to
the single cluster. -/
def ClusterObj.properties (c : ClusterObj) (s : Aws) :
    List Event × Except PyError ClusterRes :=
  match cpDescribeCluster s c.config.clusterIdentifier with
  | .ok k => ([.describeClusters c.config.clusterIdentifier], .ok k)
  | .error e => ([.describeClusters c.config.clusterIdentifier], .error (.clientError e))

/-- Embedding of `Cluster.status`: the `ClusterStatus` field of
`properties()`. -/
def ClusterObj.statusOf (c : ClusterObj) (s : Aws) :
    List Event × Except PyError ClusterStatus :=
  match c.properties s with
  | (t, .ok k) => (t, .ok k.status)
  | (t, .error e) => (t, .error e)

/-- Embedding of `Cluster.summary`: prints fields of `properties()`,
including `Endpoint`; a missing endpoint key is a `KeyError`. -/
def ClusterObj.summary (c : ClusterObj) (s : Aws) :
    List Event × Except PyError Unit :=
  match c.properties s with
  | (t, .ok k) =>
      match k.endpoint with
      | some _ => (t, .ok ())
      | none => (t, .error (.keyError "Endpoint"))
  | (t, .error e) => (t, .error e)

/-- Embedding of `Cluster.pause` as written in `src/cluster.py`.  The
handler line reads `except client.exceptions.InvalidClusterStateFound:`;
the name `client` is not bound in the method or in the module, so the
moment `pause_cluster` raises anything, evaluating the handler class
raises `NameError` — the snapshot recovery below it is unreachable. -/
def ClusterObj.pause (c : ClusterObj) (s : Aws) :
    List Event × Except PyError Aws :=
  let ci := c.config.clusterIdentifier
  match cpPauseCluster s ci with
  | .ok s₁ => ([.pauseCluster ci], .ok s₁)
  | .error _ => ([.pauseCluster ci], .error (.nameError "client"))

/-- Embedding of the free function `aws_utils.pause_cluster`, where the
local `client` is in scope, under the reading that its handler catches
the backup-required rejection: create the snapshot under the fixed
identifier, wait until it is available, retry the pause once; any
failure of the retried pause propagates. -/
def pause_cluster_util (ci : String) (s : Aws) :
    List Event × Except PyError Aws :=
  match cpPauseCluster s ci with
  | .ok s₁ => ([.pauseCluster ci], .ok s₁)
  | .error "InvalidClusterStateFault" =>
      match cpCreateSnapshot s "pause-cluster-snap" ci with
      | .error e => ([.pauseCluster ci, .createSnapshot "pause-cluster-snap" ci],
                     .error (.clientError e))
      | .ok s₁ =>
          match waiterSnapshotAvailable s₁ "pause-cluster-snap" ci with
          | .error e =>
              ([.pauseCluster ci, .createSnapshot "pause-cluster-snap" ci,
                .waitSnapshotAvailable "pause-cluster-snap" ci], .error e)
          | .ok s₂ =>
              match cpPauseCluster s₂ ci with
              | .ok s₃ =>
                  ([.pauseCluster ci, .createSnapshot "pause-cluster-snap" ci,
                    .waitSnapshotAvailable "pause-cluster-snap" ci, .pauseCluster ci],
                   .ok s₃)
              | .error e =>
                  ([.pauseCluster ci, .createSnapshot "pause-cluster-snap" ci,
                    .waitSnapshotAvailable "pause-cluster-snap" ci, .pauseCluster ci],
                   .error (.clientError e))
  | .error e => ([.pauseCluster ci], .error (.clientError e))

/-- Embedding of `Cluster.wait`. -/
def ClusterObj.wait (c : ClusterObj) (s : Aws) :
    List Event × Except PyError Aws :=
  ([.waitClusterAvailable c.config.clusterIdentifier],
   waiterClusterAvailable s c.config.clusterIdentifier)

/-- Embedding of `Cluster.write_host_to_cfg`: read
`properties()['Endpoint']['Address']` (a missing endpoint is a
`KeyError`), then set `DB`/`HOST` in the configuration file. -/
def ClusterObj.write_host_to_cfg (c : ClusterObj) (s : Aws) (cfg : CfgFile) :
    List Event × Except PyError CfgFile :=
  match c.properties s with
  | (t, .error e) => (t, .error e)
  | (t, .ok k) =>
      match k.endpoint with
      | none => (t, .error (.keyError "Endpoint"))
      | some host =>
          match cfgSet cfg "DB" "HOST" host with
          | some cfg₁ => (t, .ok cfg₁)
          | none => (t, .error (.noSection "DB"))

/-- Embedding of `Cluster.open_tpc`: look up the VPC from
`properties()`, then authorize inbound TCP on the configured port. -/
def ClusterObj.open_tpc (c : ClusterObj) (s : Aws) :
    List Event × Except PyError Aws :=
  match c.properties s with
  | (t, .error e) => (t, .error e)
  | (t, .ok _) =>
      match strToNat? c.db_config.port with
      | none => (t, .error (.valueError "invalid literal for int"))
      | some port =>
          (t ++ [.authorizeIngress port], .ok (ingressAdded s port))

/-- Embedding of `Cluster.delete`: `delete_cluster` without a final
snapshot, treating `ClusterNotFoundFault` as already-deleted success;
on acceptance, block on the `cluster_deleted` waiter until the resource
is gone. -/
def ClusterObj.delete (c : ClusterObj) (s : Aws) :
    List Event × Except PyError Aws :=
  let ci := c.config.clusterIdentifier
  match cpDeleteCluster s ci with
  | .error "ClusterNotFoundFault" => ([.deleteCluster ci], .ok s)
  | .error e => ([.deleteCluster ci], .error (.clientError e))
  | .ok s₁ =>
      ([.deleteCluster ci, .waitClusterDeleted ci], .ok (waiterClusterDeleted s₁ ci))

/-! ## Orchestration driver (embedding of `bin/iac.py` and
`bin/status.py`) -/

/-- Embedding of `bin/iac.py main()`: the provision sequence in source
order — role create, wait, record ARN, attach policy, wait; then cluster
create, wait, record host, open ingress, and a final summary. -/
def iacMain (cfg : CfgFile) (s : Aws) :
    List Event × Except PyError (Aws × CfgFile) :=
  match RedshiftRole.mkFromCfg cfg with
  | none => ([], .error (.noSection "IAM_ROLE"))
  | some r =>
  match r.create s with
  | (t₁, .error e) => (t₁, .error e)
  | (t₁, .ok (_, s₁)) =>
  match r.wait_for_role s₁ with
  | (t₂, .error e) => (t₁ ++ t₂, .error e)
  | (t₂, .ok s₂) =>
  match r.write_arn_to_cfg s₂ cfg with
  | (t₃, .error e) => (t₁ ++ t₂ ++ t₃, .error e)
  | (t₃, .ok cfg₁) =>
  match r.allow_read_access s₂ with
  | (t₄, .error e) => (t₁ ++ t₂ ++ t₃ ++ t₄, .error e)
  | (t₄, .ok s₃) =>
  match r.wait_for_policy s₃ with
  | (t₅, .error e) => (t₁ ++ t₂ ++ t₃ ++ t₄ ++ t₅, .error e)
  | (t₅, .ok s₄) =>
  match ClusterObj.mkFromCfg cfg₁ with
  | none => (t₁ ++ t₂ ++ t₃ ++ t₄ ++ t₅, .error (.noSection "CLUSTER"))
  | some c =>
  match c.create cfg₁ s₄ with
  | (t₆, .error e) => (t₁ ++ t₂ ++ t₃ ++ t₄ ++ t₅ ++ t₆, .error e)
  | (t₆, .ok (_, s₅)) =>
  match c.wait s₅ with
  | (t₇, .error e) => (t₁ ++ t₂ ++ t₃ ++ t₄ ++ t₅ ++ t₆ ++ t₇, .error e)
  | (t₇, .ok s₆) =>
  match c.write_host_to_cfg s₆ cfg₁ with
  | (t₈, .error e) => (t₁ ++ t₂ ++ t₃ ++ t₄ ++ t₅ ++ t₆ ++ t₇ ++ t₈, .error e)
  | (t₈, .ok cfg₂) =>
  match c.open_tpc s₆ with
  | (t₉, .error e) => (t₁ ++ t₂ ++ t₃ ++ t₄ ++ t₅ ++ t₆ ++ t₇ ++ t₈ ++ t₉, .error e)
  | (t₉, .ok s₇) =>
  match c.summary s₇ with
  | (t₁₀, .error e) =>
      (t₁ ++ t₂ ++ t₃ ++ t₄ ++ t₅ ++ t₆ ++ t₇ ++ t₈ ++ t₉ ++ t₁₀, .error e)
  | (t₁₀, .ok ()) =>
      (t₁ ++ t₂ ++ t₃ ++ t₄ ++ t₅ ++ t₆ ++ t₇ ++ t₈ ++ t₉ ++ t₁₀, .ok (s₇, cfg₂))

/-- Embedding of `bin/status.py cleanup()`: delete the cluster, then
delete the role. -/
def cleanup (c : ClusterObj) (r : RedshiftRole) (s : Aws) (sched : Nat → Bool) :
    List Event × Except PyError Aws :=
  match (c.delete s).2 with
  | .error e => ((c.delete s).1, .error e)
  | .ok s₁ =>
      ((c.delete s).1 ++ (r.delete s₁ sched).1, (r.delete s₁ sched).2)

/-! ## Concrete instances used in counterexamples and witnesses -/

/-- A representative configuration file, shaped like `src/cfg/dwh.cfg`
(option keys stored lower-cased, as `configparser` does). -/
def sampleCfg : CfgFile :=
  [("AWS", [("key", "AKIA"), ("secret", "SECRET"), ("region", "us-west-2")]),
   ("CLUSTER", [("cluster_type", "multi-node"), ("num_nodes", "4"),
                ("node_type", "dc2.large"), ("cluster_identifier", "dwhcluster")]),
   ("DB", [("name", "dwh"), ("user", "dwhuser"), ("password", "Passw0rd"),
           ("port", "5439"), ("host", "")]),
   ("IAM_ROLE", [("name", "dwhRole"), ("arn", "")]),
   ("S3", [("log_data", "s3://udacity-dend/log_data"),
           ("log_jsonpath", "s3://udacity-dend/log_json_path.json"),
           ("song_data", "s3://udacity-dend/song_data")])]

/-- A fresh control plane: no role, no cluster, only the AWS-managed
read policy present. -/
def freshAws : Aws := ⟨[], [readPolicyArn], [], [], [], [], []⟩

/-- A `Cluster` object bound to a non-empty role ARN. -/
def sampleCluster : ClusterObj :=
  ⟨⟨"multi-node", "4", "dc2.large", "dwhcluster"⟩,
   ⟨"dwh", "dwhuser", "Passw0rd", "5439", ""⟩,
   some (mkRoleArn "dwhRole")⟩

/-- A `Cluster` object whose role ARN is unset. -/
def armlessCluster : ClusterObj :=
  ⟨⟨"multi-node", "4", "dc2.large", "dwhcluster"⟩,
   ⟨"dwh", "dwhuser", "Passw0rd", "5439", ""⟩, none⟩

/-- A `RedshiftRole` object for the configured role name. -/
def sampleRole : RedshiftRole := ⟨"dwhRole", ""⟩

/-- Control plane holding an available cluster with no backup snapshot. -/
def pauseNoBackupState : Aws :=
  ⟨[⟨"dwhRole", mkRoleArn "dwhRole"⟩], [readPolicyArn], [("dwhRole", readPolicyArn)], [],
   [⟨"dwhcluster", .available, some (mkEndpoint "dwhcluster"), "dwh", "dwhuser", "Passw0rd",
     5439, 4, "dc2.large", "multi-node", [mkRoleArn "dwhRole"], false⟩], [], []⟩

/-- Control plane holding an available cluster that already has a
backup snapshot. -/
def pauseBackupState : Aws :=
  ⟨[⟨"dwhRole", mkRoleArn "dwhRole"⟩], [readPolicyArn], [("dwhRole", readPolicyArn)], [],
   [⟨"dwhcluster", .available, some (mkEndpoint "dwhcluster"), "dwh", "dwhuser", "Passw0rd",
     5439, 4, "dc2.large", "multi-node", [mkRoleArn "dwhRole"], true⟩], [], []⟩

/-- Control plane in the post-attach, pre-propagation moment of spec §3:
the grant attachment is accepted but not yet visible to enumeration,
while the AWS-managed read policy itself exists. -/
def attachNotVisibleState : Aws :=
  ⟨[⟨"dwhRole", mkRoleArn "dwhRole"⟩], [readPolicyArn],
   [("dwhRole", readPolicyArn)], [], [], [], []⟩

/-- A `RedshiftRole` object whose ARN field is populated. -/
def boundRole : RedshiftRole := ⟨"dwhRole", mkRoleArn "dwhRole"⟩

/-- The control plane after `Cluster.delete` has removed the cluster of
`pauseBackupState`. -/
def clusterGoneState : Aws := { pauseBackupState with clusters := [] }

/-- The control-plane calls of one provisioning run of `bin/iac.py`, in
the order the driver issues them. -/
def provisionTrace (n : String) (cc : ClusterConfig) (db : DbConfig)
    (port numNodes : Nat) : List Event :=
  [.createRole n, .waitRoleExists n, .getRole n,
   .attachPolicy n readPolicyArn, .waitPolicyExists readPolicyArn,
   .createCluster cc.clusterIdentifier db.name db.user db.password port numNodes
     cc.nodeType cc.clusterType [mkRoleArn n],
   .waitClusterAvailable cc.clusterIdentifier,
   .describeClusters cc.clusterIdentifier,
   .describeClusters cc.clusterIdentifier,
   .authorizeIngress port,
   .describeClusters cc.clusterIdentifier]

/-! ## Helper lemmas about the configuration store -/

theorem lookup_setAssign_self (a : Assign) (k v : String) :
    lookupKV (setAssign a k v) k = some v := by
  induction a with
  | nil => simp [setAssign, lookupKV]
  | cons p rest ih =>
      obtain ⟨k₀, v₀⟩ := p
      by_cases h : k₀ = k
      · simp [setAssign, h, lookupKV]
      · simp [setAssign, h, lookupKV, ih]

theorem lookup_setAssign_ne (a : Assign) (k v k' : String) (h : k' ≠ k) :
    lookupKV (setAssign a k v) k' = lookupKV a k' := by
  induction a with
  | nil => simp [setAssign, lookupKV, Ne.symm h]
  | cons p rest ih =>
      obtain ⟨k₀, v₀⟩ := p
      by_cases hp : k₀ = k
      · subst hp
        simp [setAssign, lookupKV, Ne.symm h]
      · by_cases hk : k₀ = k'
        · simp [setAssign, hp, lookupKV, hk, h]
        · simp [setAssign, hp, lookupKV, hk, ih]

theorem cfgSet_isSome_iff (cfg : CfgFile) (sec opt v : String) :
    (cfgSet cfg sec opt v).isSome ↔ (lookupKV cfg sec).isSome := by
  by_cases h : (lookupKV cfg sec).isSome <;> simp [cfgSet, h]

theorem setSectionEntry_hit (sec opt v k₀ : String) (a₀ : Assign) (h : k₀ = sec) :
    setSectionEntry sec opt v (k₀, a₀) = (k₀, setAssign a₀ (optionxform opt) v) := by
  simp [setSectionEntry, h]

theorem setSectionEntry_miss (sec opt v k₀ : String) (a₀ : Assign) (h : ¬k₀ = sec) :
    setSectionEntry sec opt v (k₀, a₀) = (k₀, a₀) := by
  simp [setSectionEntry, h]

theorem lookup_map_setSectionEntry (sec opt v : String) (cfg : CfgFile) (sec' : String) :
    lookupKV (cfg.map (setSectionEntry sec opt v)) sec' =
      if sec' = sec then (lookupKV cfg sec).map (fun a => setAssign a (optionxform opt) v)
      else lookupKV cfg sec' := by
  induction cfg with
  | nil => simp [lookupKV]
  | cons p rest ih =>
      obtain ⟨k₀, a₀⟩ := p
      simp only [List.map_cons]
      by_cases hp : k₀ = sec
      · rw [setSectionEntry_hit sec opt v k₀ a₀ hp]
        subst hp
        by_cases hs : sec' = k₀
        · subst hs
          simp [lookupKV]
        · simp [lookupKV, Ne.symm hs, hs, ih]
      · rw [setSectionEntry_miss sec opt v k₀ a₀ hp]
        by_cases hs : sec' = k₀
        · subst hs
          simp [lookupKV, hp]
        · simp [lookupKV, Ne.symm hs, ih, hp]

theorem cfgSet_lookup (cfg : CfgFile) (sec opt v : String) (cfg' : CfgFile)
    (h : cfgSet cfg sec opt v = some cfg') (sec' : String) :
    lookupKV cfg' sec' =
      if sec' = sec then (lookupKV cfg sec).map (fun a => setAssign a (optionxform opt) v)
      else lookupKV cfg sec' := by
  have hsome : (lookupKV cfg sec).isSome := by
    by_contra hns
    simp [cfgSet, hns] at h
  have hcfg' : cfg' = cfg.map (setSectionEntry sec opt v) := by
    simp [cfgSet, hsome] at h
    exact h.symm
  subst hcfg'
  exact lookup_map_setSectionEntry sec opt v cfg sec'

theorem cfgRead_cfgSet_self (cfg : CfgFile) (sec opt v : String) (cfg' : CfgFile)
    (h : cfgSet cfg sec opt v = some cfg') :
    cfgRead cfg' sec opt = some v := by
  have hsome : (lookupKV cfg sec).isSome := by
    by_contra hns
    simp [cfgSet, hns] at h
  obtain ⟨a, ha⟩ := Option.isSome_iff_exists.mp hsome
  simp [cfgRead, cfgSet_lookup cfg sec opt v cfg' h, ha, lookup_setAssign_self]

theorem cfgRead_cfgSet_frame (cfg : CfgFile) (sec opt v : String) (cfg' : CfgFile)
    (h : cfgSet cfg sec opt v = some cfg') (sec' opt' : String)
    (hne : sec' ≠ sec ∨ optionxform opt' ≠ optionxform opt) :
    cfgRead cfg' sec' opt' = cfgRead cfg sec' opt' := by
  rcases hne with hne | hne
  · simp [cfgRead, cfgSet_lookup cfg sec opt v cfg' h, hne]
  · by_cases hs : sec' = sec
    · subst hs
      cases ha : lookupKV cfg sec' with
      | none => simp [cfgRead, cfgSet_lookup cfg sec' opt v cfg' h, ha]
      | some a =>
          simp [cfgRead, cfgSet_lookup cfg sec' opt v cfg' h, ha,
                lookup_setAssign_ne a (optionxform opt) v (optionxform opt') hne]
    · simp [cfgRead, cfgSet_lookup cfg sec opt v cfg' h, hs]

/-! ## Claim theorems -/

/-- Claim C1: for every cluster configuration, `Cluster.create()` with an
empty role ARN (both on the object and in the persisted role reference)
raises `ValueError` and issues zero control-plane calls; with a
non-empty bound ARN it issues the `create_cluster` request carrying that
identity and the `ClusterConfig` fields. -/
theorem cluster_create_role_arn_precondition (c : ClusterObj) (cfg : CfgFile) (s : Aws) :
    (truthyOpt c.role_arn = false →
      ∀ n, get_role_name_arn cfg = some (n, "") →
        c.create cfg s = ([], .error (.valueError "arn cannot be empty string"))) ∧
    (∀ a port numNodes, c.role_arn = some a → a ≠ "" →
      strToNat? c.db_config.port = some port →
      strToNat? c.config.numNodes = some numNodes →
      (c.create cfg s).1 = [createClusterEvent c a port numNodes]) := by
  constructor
  · intro ht n hcfg
    have hres : resolveArn c cfg = .error (.valueError "arn cannot be empty string") := by
      simp [resolveArn, ht, hcfg, ClusterObj.set_role_arn]
    simp [ClusterObj.create, hres]
  · intro a port numNodes ha hne hp hn
    have ht : truthyOpt c.role_arn = true := by simp [truthyOpt, ha, hne]
    have hres : resolveArn c cfg = .ok c := by simp [resolveArn, ht]
    simp only [ClusterObj.create, hres, hp, hn, ha, Option.getD_some]
    cases hcc : cpCreateCluster s (clusterReq c a port numNodes) with
    | ok s₁ => rfl
    | error e => split <;> rfl

/-- Witness for C1 at concrete inputs: an ARN-less object over a file
whose persisted ARN is empty fails with `ValueError` and an empty trace,
while a bound object issues exactly the creation request. -/
theorem cluster_create_role_arn_precondition_witness :
    armlessCluster.create sampleCfg freshAws
        = ([], .error (.valueError "arn cannot be empty string")) ∧
    (sampleCluster.create sampleCfg freshAws).1
        = [createClusterEvent sampleCluster (mkRoleArn "dwhRole") 5439 4] := by
  constructor
  · exact (cluster_create_role_arn_precondition armlessCluster sampleCfg freshAws).1
      (by decide) "dwhRole" (by decide)
  · exact (cluster_create_role_arn_precondition sampleCluster sampleCfg freshAws).2
      (mkRoleArn "dwhRole") 5439 4 rfl (by decide) (by decide) (by decide)

/-- Claim C2 (code bug): at a cluster with no backup snapshot, the
rejected pause makes `Cluster.pause` raise `NameError` (the handler line
names the undefined `client`), so no snapshot is created and no retry is
issued; on a cluster that already has a snapshot the pause succeeds with
no snapshot call; the free-function `aws_utils.pause_cluster`, whose
`client` is in scope, performs exactly the claimed recovery. -/
theorem cluster_pause_handler_namerror :
    sampleCluster.pause pauseNoBackupState
        = ([.pauseCluster "dwhcluster"], .error (.nameError "client")) ∧
    (sampleCluster.pause pauseBackupState).1 = [.pauseCluster "dwhcluster"] ∧
    (sampleCluster.pause pauseBackupState).2.isOk = true ∧
    (pause_cluster_util "dwhcluster" pauseNoBackupState).1
        = [.pauseCluster "dwhcluster", .createSnapshot "pause-cluster-snap" "dwhcluster",
           .waitSnapshotAvailable "pause-cluster-snap" "dwhcluster",
           .pauseCluster "dwhcluster"] ∧
    (pause_cluster_util "dwhcluster" pauseNoBackupState).2.isOk = true := by
  refine ⟨rfl, rfl, rfl, rfl, rfl⟩

/-- Claim C6: `Role.create()` is idempotent — on a fresh name the first
call truly creates and returns the response, the second call hits
`EntityAlreadyExists`, is treated as a logged no-op returning the `None`
sentinel, and exactly one identity with that name exists. -/
theorem role_create_idempotent (r : RedshiftRole) (s : Aws)
    (hfresh : ∀ x ∈ s.roles, x.name ≠ r.name) :
    r.create s = ([.createRole r.name],
        .ok (some (⟨r.name, mkRoleArn r.name⟩ : RoleRes),
             { s with roles := s.roles ++ [(⟨r.name, mkRoleArn r.name⟩ : RoleRes)] })) ∧
    RedshiftRole.create r
        { s with roles := s.roles ++ [(⟨r.name, mkRoleArn r.name⟩ : RoleRes)] }
        = ([.createRole r.name],
           .ok (none, { s with roles := s.roles ++ [(⟨r.name, mkRoleArn r.name⟩ : RoleRes)] })) ∧
    ((s.roles ++ [(⟨r.name, mkRoleArn r.name⟩ : RoleRes)]).filter
        (fun x => x.name = r.name)).length = 1 := by
  have hany : (s.roles.any fun x => x.name = r.name) = false := by
    simp only [List.any_eq_false, decide_eq_true_eq]
    exact hfresh
  have hnil : s.roles.filter (fun x => x.name = r.name) = [] := by
    rw [List.filter_eq_nil_iff]
    intro x hx
    simp [hfresh x hx]
  have h1 : cpCreateRole s r.name
      = .ok (⟨r.name, mkRoleArn r.name⟩,
             { s with roles := s.roles ++ [(⟨r.name, mkRoleArn r.name⟩ : RoleRes)] }) := by
    simp [cpCreateRole, hany, roleCreated]
  have h2 : cpCreateRole
      { s with roles := s.roles ++ [(⟨r.name, mkRoleArn r.name⟩ : RoleRes)] } r.name
      = .error "EntityAlreadyExists" := by
    simp [cpCreateRole]
  refine ⟨?_, ?_, ?_⟩
  · simp only [RedshiftRole.create, h1]
  · simp only [RedshiftRole.create, h2]
  · simp [List.filter_append, hnil]

/-- Witness for C6: the idempotent double-create at a fresh control
plane with the configured role name. -/
theorem role_create_idempotent_witness :
    sampleRole.create freshAws = ([.createRole "dwhRole"],
        .ok (some (⟨"dwhRole", mkRoleArn "dwhRole"⟩ : RoleRes),
             { freshAws with roles :=
                freshAws.roles ++ [(⟨"dwhRole", mkRoleArn "dwhRole"⟩ : RoleRes)] })) ∧
    RedshiftRole.create sampleRole
        { freshAws with roles :=
            freshAws.roles ++ [(⟨"dwhRole", mkRoleArn "dwhRole"⟩ : RoleRes)] }
        = ([.createRole "dwhRole"],
           .ok (none,
             { freshAws with roles :=
                freshAws.roles ++ [(⟨"dwhRole", mkRoleArn "dwhRole"⟩ : RoleRes)] })) ∧
    ((freshAws.roles ++ [(⟨"dwhRole", mkRoleArn "dwhRole"⟩ : RoleRes)]).filter
        (fun x => x.name = "dwhRole")).length = 1 :=
  role_create_idempotent sampleRole freshAws (by simp [freshAws])

/-- Claim C7: `Cluster.create()` is idempotent — with a bound non-empty
ARN and a fresh identifier the first call creates the cluster, the
second call hits `ClusterAlreadyExistsFault`, treated as a no-op
success returning the `None` sentinel, and exactly one cluster with
that identifier exists. -/
theorem cluster_create_idempotent (c : ClusterObj) (cfg : CfgFile) (s : Aws)
    (a : String) (port numNodes : Nat)
    (ha : c.role_arn = some a) (hne : a ≠ "")
    (hp : strToNat? c.db_config.port = some port)
    (hn : strToNat? c.config.numNodes = some numNodes)
    (hfresh : ∀ k ∈ s.clusters, k.identifier ≠ c.config.clusterIdentifier) :
    c.create cfg s = ([createClusterEvent c a port numNodes],
        .ok (some (clusterReq c a port numNodes),
             { s with clusters := s.clusters ++ [clusterReq c a port numNodes] })) ∧
    ClusterObj.create c cfg { s with clusters := s.clusters ++ [clusterReq c a port numNodes] }
        = ([createClusterEvent c a port numNodes],
           .ok (none, { s with clusters := s.clusters ++ [clusterReq c a port numNodes] })) ∧
    ((s.clusters ++ [clusterReq c a port numNodes]).filter
        (fun k => k.identifier = c.config.clusterIdentifier)).length = 1 := by
  have ht : truthyOpt c.role_arn = true := by simp [truthyOpt, ha, hne]
  have hany : (s.clusters.any fun k => k.identifier = c.config.clusterIdentifier) = false := by
    simp only [List.any_eq_false, decide_eq_true_eq]
    exact hfresh
  have hnil : s.clusters.filter (fun k => k.identifier = c.config.clusterIdentifier) = [] := by
    rw [List.filter_eq_nil_iff]
    intro k hk
    simp [hfresh k hk]
  have h1 : cpCreateCluster s (clusterReq c a port numNodes)
      = .ok { s with clusters := s.clusters ++ [clusterReq c a port numNodes] } := by
    simp [cpCreateCluster, clusterReq, clusterAdded, hany]
  have h2 : cpCreateCluster
      { s with clusters := s.clusters ++ [clusterReq c a port numNodes] }
      (clusterReq c a port numNodes)
      = .error "ClusterAlreadyExistsFault" := by
    simp [cpCreateCluster, clusterReq]
  have hres : resolveArn c cfg = .ok c := by simp [resolveArn, ht]
  refine ⟨?_, ?_, ?_⟩
  · simp only [ClusterObj.create, hres, hp, hn, ha, Option.getD_some]
    rw [h1]
  · simp only [ClusterObj.create, hres, hp, hn, ha, Option.getD_some]
    rw [h2]
    rfl
  · simp [List.filter_append, hnil, clusterReq]

/-- Witness for C7: the idempotent double-create of the sample cluster
at a fresh control plane. -/
theorem cluster_create_idempotent_witness :
    sampleCluster.create sampleCfg freshAws
        = ([createClusterEvent sampleCluster (mkRoleArn "dwhRole") 5439 4],
        .ok (some (clusterReq sampleCluster (mkRoleArn "dwhRole") 5439 4),
             { freshAws with clusters :=
                freshAws.clusters ++ [clusterReq sampleCluster (mkRoleArn "dwhRole") 5439 4] })) ∧
    ClusterObj.create sampleCluster sampleCfg
        { freshAws with clusters :=
            freshAws.clusters ++ [clusterReq sampleCluster (mkRoleArn "dwhRole") 5439 4] }
        = ([createClusterEvent sampleCluster (mkRoleArn "dwhRole") 5439 4],
           .ok (none, { freshAws with clusters :=
                freshAws.clusters ++ [clusterReq sampleCluster (mkRoleArn "dwhRole") 5439 4] })) ∧
    ((freshAws.clusters ++ [clusterReq sampleCluster (mkRoleArn "dwhRole") 5439 4]).filter
        (fun k => k.identifier = sampleCluster.config.clusterIdentifier)).length = 1 :=
  cluster_create_idempotent sampleCluster sampleCfg freshAws (mkRoleArn "dwhRole") 5439 4
    rfl (by decide) (by decide) (by decide) (by simp [freshAws])

/-- Counterexample to claim C8 as stated: in the post-attach,
pre-propagation state the waiter `policy_exists` returns successfully
(the AWS-managed policy exists), yet the grant attachment between the
role and the read-capability identifier is not visible — so a
successful `wait_for_policy()` return does not establish attachment
visibility. -/
theorem wait_for_policy_attachment_cex :
    boundRole.wait_for_policy attachNotVisibleState
        = ([.waitPolicyExists readPolicyArn], .ok attachNotVisibleState) ∧
    ("dwhRole", readPolicyArn) ∈ attachNotVisibleState.attached ∧
    ("dwhRole", readPolicyArn) ∉ attachNotVisibleState.attachVisible := by
  refine ⟨rfl, by decide, by decide⟩

/-- Claim C8 (amended): `wait_for_policy()` polls only the existence of
the fixed read-capability policy ARN — it returns successfully, leaving
the state unchanged, exactly when that policy is enumerable, and times
out otherwise; it neither observes nor establishes visibility of the
grant attachment between the role and the policy. -/
theorem wait_for_policy_polls_policy_existence (r : RedshiftRole) (s : Aws) :
    (readPolicyArn ∈ s.policies →
      r.wait_for_policy s = ([.waitPolicyExists readPolicyArn], .ok s)) ∧
    (readPolicyArn ∉ s.policies →
      r.wait_for_policy s
        = ([.waitPolicyExists readPolicyArn], .error (.waiterTimeout "policy_exists"))) := by
  constructor
  · intro h
    simp [RedshiftRole.wait_for_policy, waiterPolicyExists, h]
  · intro h
    simp [RedshiftRole.wait_for_policy, waiterPolicyExists, h]

/-- Witness for the amended C8 at concrete states: success when the
policy exists, timeout when it does not. -/
theorem wait_for_policy_polls_policy_existence_witness :
    boundRole.wait_for_policy attachNotVisibleState
        = ([.waitPolicyExists readPolicyArn], .ok attachNotVisibleState) ∧
    boundRole.wait_for_policy { attachNotVisibleState with policies := [] }
        = ([.waitPolicyExists readPolicyArn], .error (.waiterTimeout "policy_exists")) :=
  ⟨(wait_for_policy_polls_policy_existence boundRole attachNotVisibleState).1 (by decide),
   (wait_for_policy_polls_policy_existence boundRole
      { attachNotVisibleState with policies := [] }).2 (by decide)⟩

theorem detachWaitFrom_timeout (sched : Nat → Bool)
    (h : ∀ m, m ≤ 30 → sched m = true) :
    ∀ k n, n + k = 30 → (detachWaitFrom sched n).2
      = .error (.exceptionMsg "Policy took too long to detach.") := by
  intro k
  induction k with
  | zero =>
      intro n hn
      have h30 : n = 30 := by omega
      subst h30
      unfold detachWaitFrom
      simp [h 30 (by omega)]
  | succ k ih =>
      intro n hn
      have h31 : n < 31 := by omega
      have h30 : n < 30 := by omega
      unfold detachWaitFrom
      simp [h n (by omega), h31, h30]
      exact ih (n + 1) (by omega)

theorem detachWaitFrom_events (sched : Nat → Bool) :
    ∀ k n, 31 - n = k → ∀ e ∈ (detachWaitFrom sched n).1,
      e = Event.listAttachedRoles readPolicyArn := by
  intro k
  induction k with
  | zero =>
      intro n hn e he
      have h31 : ¬n < 31 := by omega
      unfold detachWaitFrom at he
      simp [h31] at he
  | succ k ih =>
      intro n hn e he
      have h31 : n < 31 := by omega
      unfold detachWaitFrom at he
      by_cases hs : sched n = true
      · by_cases h30 : n < 30
        · simp [h31, hs, h30] at he
          rcases he with he | he
          · exact he
          · exact ih (n + 1) (by omega) e he
        · simp [h31, hs, h30] at he
          exact he
      · simp [h31, hs] at he
        exact he

/-- Claim C3: `Role.delete()` always requests the grant detach first
(the trace begins with the detach call), and when the detachment never
becomes visible within the 31 bounded checks of the polling loop, it
raises the fatal timeout error and never issues the identity-delete
request. -/
theorem role_delete_detach_before_delete (r : RedshiftRole) (s : Aws) (sched : Nat → Bool) :
    ((r.delete s sched).1.head? = some (.detachPolicy r.name readPolicyArn)) ∧
    ((r.name, readPolicyArn) ∈ s.attached →
      (∀ m, m ≤ 30 → sched m = true) →
      (r.delete s sched).2 = .error (.exceptionMsg "Policy took too long to detach.") ∧
      Event.deleteRole r.name ∉ (r.delete s sched).1) := by
  constructor
  · by_cases hmem : (r.name, readPolicyArn) ∈ s.attached
    · have hd : cpDetachRolePolicy s r.name readPolicyArn
          = .ok { s with attached := s.attached.filter (fun p => p ≠ (r.name, readPolicyArn)) } := by
        simp [cpDetachRolePolicy, hmem]
      simp only [RedshiftRole.delete, hd]
      cases (detachWaitFrom sched 0).2 <;> simp
    · have hd : cpDetachRolePolicy s r.name readPolicyArn = .error "NoSuchEntity" := by
        simp [cpDetachRolePolicy, hmem]
      simp only [RedshiftRole.delete, hd]
      rfl
  · intro hmem hall
    have hd : cpDetachRolePolicy s r.name readPolicyArn
        = .ok { s with attached := s.attached.filter (fun p => p ≠ (r.name, readPolicyArn)) } := by
      simp [cpDetachRolePolicy, hmem]
    have hto : (detachWaitFrom sched 0).2
        = .error (.exceptionMsg "Policy took too long to detach.") :=
      detachWaitFrom_timeout sched hall 30 0 (by omega)
    simp only [RedshiftRole.delete, hd, hto]
    constructor
    · trivial
    · intro hcon
      simp only [List.mem_cons] at hcon
      rcases hcon with hcon | hcon
      · exact Event.noConfusion hcon
      · have := detachWaitFrom_events sched 31 0 (by omega) _ hcon
        exact Event.noConfusion this

/-- Witness for C3 at concrete inputs: an attached grant whose
detachment never becomes visible (every check still lists the role)
makes `delete` time out after the detach request with no identity
delete issued. -/
theorem role_delete_detach_before_delete_witness :
    ((boundRole.delete attachNotVisibleState (fun _ => true)).1.head?
        = some (.detachPolicy "dwhRole" readPolicyArn)) ∧
    (boundRole.delete attachNotVisibleState (fun _ => true)).2
        = .error (.exceptionMsg "Policy took too long to detach.") ∧
    Event.deleteRole "dwhRole" ∉ (boundRole.delete attachNotVisibleState (fun _ => true)).1 := by
  have h := role_delete_detach_before_delete boundRole attachNotVisibleState (fun _ => true)
  have h2 := h.2 (by decide) (fun m _ => rfl)
  exact ⟨h.1, h2.1, h2.2⟩

/-- Claim C4: in every de-provisioning run, role deletion is reached
only after `Cluster.delete` has returned success or not-found-as-success
— on success the returned state no longer holds the cluster (the delete
path blocks on the `cluster_deleted` waiter before returning), `cleanup`
runs the role deletion on exactly that state, a failing cluster delete
aborts before any role call, the cluster phase never issues an identity
delete, and when the cluster existed the cluster phase consists of the
delete request followed by the blocking wait. -/
theorem cleanup_cluster_before_role (c : ClusterObj) (r : RedshiftRole) (s : Aws)
    (sched : Nat → Bool) :
    (∀ s₁, (c.delete s).2 = .ok s₁ →
      (∀ k ∈ s₁.clusters, k.identifier ≠ c.config.clusterIdentifier) ∧
      cleanup c r s sched
        = ((c.delete s).1 ++ (r.delete s₁ sched).1, (r.delete s₁ sched).2)) ∧
    (∀ e, (c.delete s).2 = .error e → cleanup c r s sched = ((c.delete s).1, .error e)) ∧
    Event.deleteRole r.name ∉ (c.delete s).1 ∧
    ((∃ k ∈ s.clusters, k.identifier = c.config.clusterIdentifier) →
      (c.delete s).1 = [.deleteCluster c.config.clusterIdentifier,
                        .waitClusterDeleted c.config.clusterIdentifier]) := by
  by_cases hex : (s.clusters.any fun k => k.identifier = c.config.clusterIdentifier) = true
  · have hcp : cpDeleteCluster s c.config.clusterIdentifier
        = .ok { s with clusters := s.clusters.map fun k =>
            if k.identifier = c.config.clusterIdentifier then { k with status := .deleting }
            else k } := by
      simp only [cpDeleteCluster, hex, if_true]
    have hdel : c.delete s
        = ([.deleteCluster c.config.clusterIdentifier,
            .waitClusterDeleted c.config.clusterIdentifier],
           .ok (waiterClusterDeleted
             { s with clusters := s.clusters.map fun k =>
                 if k.identifier = c.config.clusterIdentifier then { k with status := .deleting }
                 else k } c.config.clusterIdentifier)) := by
      simp only [ClusterObj.delete, hcp]
    refine ⟨?_, ?_, ?_, ?_⟩
    · intro s₁ h
      rw [hdel] at h
      simp only [Except.ok.injEq] at h
      subst h
      constructor
      · intro k hk
        simp only [waiterClusterDeleted, List.mem_filter, decide_eq_true_eq] at hk
        exact hk.2
      · simp only [cleanup, hdel]
    · intro e h
      rw [hdel] at h
      exact Except.noConfusion h
    · rw [hdel]
      simp
    · intro _
      rw [hdel]
  · have hcp : cpDeleteCluster s c.config.clusterIdentifier = .error "ClusterNotFoundFault" := by
      unfold cpDeleteCluster
      rw [if_neg hex]
    have hdel : c.delete s = ([.deleteCluster c.config.clusterIdentifier], .ok s) := by
      simp only [ClusterObj.delete, hcp]
    refine ⟨?_, ?_, ?_, ?_⟩
    · intro s₁ h
      rw [hdel] at h
      simp only [Except.ok.injEq] at h
      subst h
      constructor
      · intro k hk
        simp only [List.any_eq_true, decide_eq_true_eq, not_exists, not_and] at hex
        push_neg at hex
        exact hex k hk
      · simp only [cleanup, hdel]
    · intro e h
      rw [hdel] at h
      exact Except.noConfusion h
    · rw [hdel]
      simp
    · intro hk
      exfalso
      obtain ⟨k, hkm, hki⟩ := hk
      apply hex
      simp only [List.any_eq_true, decide_eq_true_eq]
      exact ⟨k, hkm, hki⟩

/-- Witness for C4: deleting the existing backup cluster removes it and
the role phase then runs on the cluster-free state. -/
theorem cleanup_cluster_before_role_witness :
    (∀ k ∈ clusterGoneState.clusters, k.identifier ≠ "dwhcluster") ∧
    cleanup sampleCluster boundRole pauseBackupState (fun _ => false)
      = ((sampleCluster.delete pauseBackupState).1
          ++ (boundRole.delete clusterGoneState (fun _ => false)).1,
         (boundRole.delete clusterGoneState (fun _ => false)).2) ∧
    Event.deleteRole "dwhRole" ∉ (sampleCluster.delete pauseBackupState).1 ∧
    (sampleCluster.delete pauseBackupState).1
      = [.deleteCluster "dwhcluster", .waitClusterDeleted "dwhcluster"] := by
  have h := cleanup_cluster_before_role sampleCluster boundRole pauseBackupState (fun _ => false)
  have h1 := h.1 clusterGoneState (by rfl)
  exact ⟨h1.1, h1.2, h.2.2.1, h.2.2.2 (by decide)⟩

theorem get_db_config_fields (cfg : CfgFile) (db : DbConfig)
    (h : get_db_config cfg = some db) :
    cfgRead cfg "DB" "NAME" = some db.name ∧
    cfgRead cfg "DB" "USER" = some db.user ∧
    cfgRead cfg "DB" "PASSWORD" = some db.password ∧
    cfgRead cfg "DB" "PORT" = some db.port ∧
    cfgRead cfg "DB" "HOST" = some db.host := by
  simp only [get_db_config, Option.bind_eq_bind, Option.bind_eq_some, Option.pure_def,
    Option.some.injEq] at h
  obtain ⟨n, hn, u, hu, pw, hpw, po, hpo, ho, hho, hdb⟩ := h
  subst hdb
  exact ⟨hn, hu, hpw, hpo, hho⟩

theorem get_db_config_set_host (cfg cfg₁ : CfgFile) (db : DbConfig) (host : String)
    (h : cfgSet cfg "DB" "HOST" host = some cfg₁)
    (hdb : get_db_config cfg = some db) :
    get_db_config cfg₁ = some { db with host := host } := by
  obtain ⟨hn, hu, hpw, hpo, _⟩ := get_db_config_fields cfg db hdb
  unfold get_db_config
  rw [cfgRead_cfgSet_frame cfg "DB" "HOST" host cfg₁ h "DB" "NAME" (Or.inr (by decide)), hn,
      cfgRead_cfgSet_frame cfg "DB" "HOST" host cfg₁ h "DB" "USER" (Or.inr (by decide)), hu,
      cfgRead_cfgSet_frame cfg "DB" "HOST" host cfg₁ h "DB" "PASSWORD" (Or.inr (by decide)), hpw,
      cfgRead_cfgSet_frame cfg "DB" "HOST" host cfg₁ h "DB" "PORT" (Or.inr (by decide)), hpo,
      cfgRead_cfgSet_self cfg "DB" "HOST" host cfg₁ h]
  rfl

theorem get_db_config_frame (cfg cfg₁ : CfgFile) (sec opt v : String)
    (h : cfgSet cfg sec opt v = some cfg₁) (hsec : sec ≠ "DB") :
    get_db_config cfg₁ = get_db_config cfg := by
  unfold get_db_config
  rw [cfgRead_cfgSet_frame cfg sec opt v cfg₁ h "DB" "NAME" (Or.inl (Ne.symm hsec)),
      cfgRead_cfgSet_frame cfg sec opt v cfg₁ h "DB" "USER" (Or.inl (Ne.symm hsec)),
      cfgRead_cfgSet_frame cfg sec opt v cfg₁ h "DB" "PASSWORD" (Or.inl (Ne.symm hsec)),
      cfgRead_cfgSet_frame cfg sec opt v cfg₁ h "DB" "PORT" (Or.inl (Ne.symm hsec)),
      cfgRead_cfgSet_frame cfg sec opt v cfg₁ h "DB" "HOST" (Or.inl (Ne.symm hsec))]

theorem get_cluster_config_frame (cfg cfg₁ : CfgFile) (sec opt v : String)
    (h : cfgSet cfg sec opt v = some cfg₁) (hsec : sec ≠ "CLUSTER") :
    get_cluster_config cfg₁ = get_cluster_config cfg := by
  unfold get_cluster_config
  rw [cfgRead_cfgSet_frame cfg sec opt v cfg₁ h "CLUSTER" "CLUSTER_TYPE" (Or.inl (Ne.symm hsec)),
      cfgRead_cfgSet_frame cfg sec opt v cfg₁ h "CLUSTER" "NUM_NODES" (Or.inl (Ne.symm hsec)),
      cfgRead_cfgSet_frame cfg sec opt v cfg₁ h "CLUSTER" "NODE_TYPE" (Or.inl (Ne.symm hsec)),
      cfgRead_cfgSet_frame cfg sec opt v cfg₁ h "CLUSTER" "CLUSTER_IDENTIFIER"
        (Or.inl (Ne.symm hsec))]

theorem get_auth_frame (cfg cfg₁ : CfgFile) (sec opt v : String)
    (h : cfgSet cfg sec opt v = some cfg₁) (hsec : sec ≠ "AWS") :
    get_auth cfg₁ = get_auth cfg := by
  unfold get_auth
  rw [cfgRead_cfgSet_frame cfg sec opt v cfg₁ h "AWS" "KEY" (Or.inl (Ne.symm hsec)),
      cfgRead_cfgSet_frame cfg sec opt v cfg₁ h "AWS" "SECRET" (Or.inl (Ne.symm hsec)),
      cfgRead_cfgSet_frame cfg sec opt v cfg₁ h "AWS" "REGION" (Or.inl (Ne.symm hsec))]

theorem get_role_name_arn_fields (cfg : CfgFile) (p : String × String)
    (h : get_role_name_arn cfg = some p) :
    cfgRead cfg "IAM_ROLE" "NAME" = some p.1 ∧ cfgRead cfg "IAM_ROLE" "ARN" = some p.2 := by
  simp only [get_role_name_arn, Option.bind_eq_bind, Option.bind_eq_some, Option.pure_def,
    Option.some.injEq] at h
  obtain ⟨n, hn, a, ha, hp⟩ := h
  subst hp
  exact ⟨hn, ha⟩

theorem get_role_name_arn_set_arn (cfg cfg₁ : CfgFile) (name old v : String)
    (h : cfgSet cfg "IAM_ROLE" "ARN" v = some cfg₁)
    (hr : get_role_name_arn cfg = some (name, old)) :
    get_role_name_arn cfg₁ = some (name, v) := by
  obtain ⟨hn, _⟩ := get_role_name_arn_fields cfg (name, old) hr
  unfold get_role_name_arn
  rw [cfgRead_cfgSet_frame cfg "IAM_ROLE" "ARN" v cfg₁ h "IAM_ROLE" "NAME" (Or.inr (by decide)),
      hn, cfgRead_cfgSet_self cfg "IAM_ROLE" "ARN" v cfg₁ h]
  rfl

theorem write_host_ok_inv (c : ClusterObj) (s : Aws) (cfg : CfgFile)
    (t : List Event) (cfg₁ : CfgFile)
    (h : c.write_host_to_cfg s cfg = (t, .ok cfg₁)) :
    ∃ host, cfgSet cfg "DB" "HOST" host = some cfg₁ := by
  unfold ClusterObj.write_host_to_cfg at h
  rcases hP : c.properties s with ⟨t0, res0⟩
  rw [hP] at h
  cases res0 with
  | error e => simp at h
  | ok k =>
      dsimp only at h
      cases hep : k.endpoint with
      | none => rw [hep] at h; simp at h
      | some host =>
          rw [hep] at h
          dsimp only at h
          cases hcs : cfgSet cfg "DB" "HOST" host with
          | none => rw [hcs] at h; simp at h
          | some cfg₂ =>
              rw [hcs] at h
              simp only [Prod.mk.injEq, Except.ok.injEq] at h
              obtain ⟨-, h2⟩ := h
              subst h2
              exact ⟨host, hcs⟩

theorem write_arn_ok_inv (r : RedshiftRole) (s : Aws) (cfg : CfgFile)
    (t : List Event) (cfg₁ : CfgFile)
    (h : r.write_arn_to_cfg s cfg = (t, .ok cfg₁)) :
    ∃ v, cfgSet cfg "IAM_ROLE" "ARN" v = some cfg₁ := by
  unfold RedshiftRole.write_arn_to_cfg at h
  cases hg : cpGetRole s r.name with
  | error e => rw [hg] at h; simp at h
  | ok res =>
      rw [hg] at h
      dsimp only at h
      cases hcs : cfgSet cfg "IAM_ROLE" "ARN" res.arn with
      | none => rw [hcs] at h; simp at h
      | some cfg₂ =>
          rw [hcs] at h
          simp only [Prod.mk.injEq, Except.ok.injEq] at h
          obtain ⟨-, h2⟩ := h
          subst h2
          exact ⟨res.arn, hcs⟩

/-- Claim C9: writing the cluster endpoint address with
`write_host_to_cfg` and then reading the database section back with
`get_db_config` returns exactly the host string that was written (all
other database fields unchanged). -/
theorem write_host_to_cfg_roundtrip (c : ClusterObj) (s : Aws) (cfg : CfgFile)
    (k : ClusterRes) (host : String) (db : DbConfig)
    (hfind : s.clusters.find? (fun x => x.identifier = c.config.clusterIdentifier) = some k)
    (hep : k.endpoint = some host)
    (hdb : get_db_config cfg = some db) :
    ∃ cfg₁, c.write_host_to_cfg s cfg
        = ([.describeClusters c.config.clusterIdentifier], .ok cfg₁) ∧
      get_db_config cfg₁ = some { db with host := host } := by
  have hsec : (lookupKV cfg "DB").isSome := by
    obtain ⟨hn, _⟩ := get_db_config_fields cfg db hdb
    unfold cfgRead at hn
    cases hl : lookupKV cfg "DB" with
    | none => rw [hl] at hn; exact Option.noConfusion hn
    | some a => rfl
  have hcs : cfgSet cfg "DB" "HOST" host
      = some (cfg.map (setSectionEntry "DB" "HOST" host)) := by
    simp [cfgSet, hsec]
  have hprop : c.properties s
      = ([.describeClusters c.config.clusterIdentifier], .ok k) := by
    unfold ClusterObj.properties
    simp [cpDescribeCluster, hfind]
  refine ⟨cfg.map (setSectionEntry "DB" "HOST" host), ?_, ?_⟩
  · unfold ClusterObj.write_host_to_cfg
    rw [hprop]
    dsimp only
    rw [hep]
    dsimp only
    rw [hcs]
  · exact get_db_config_set_host cfg _ db host hcs hdb

/-- Witness for C9 at a concrete state and file: the endpoint host of
the available sample cluster round-trips through the configuration. -/
theorem write_host_to_cfg_roundtrip_witness :
    ∃ cfg₁, sampleCluster.write_host_to_cfg pauseBackupState sampleCfg
        = ([.describeClusters "dwhcluster"], .ok cfg₁) ∧
      get_db_config cfg₁ = some ⟨"dwh", "dwhuser", "Passw0rd", "5439", mkEndpoint "dwhcluster"⟩ :=
  write_host_to_cfg_roundtrip sampleCluster pauseBackupState sampleCfg
    ⟨"dwhcluster", .available, some (mkEndpoint "dwhcluster"), "dwh", "dwhuser", "Passw0rd",
      5439, 4, "dc2.large", "multi-node", [mkRoleArn "dwhRole"], true⟩
    (mkEndpoint "dwhcluster") ⟨"dwh", "dwhuser", "Passw0rd", "5439", ""⟩
    (by decide) rfl (by decide)

/-- Claim C10: the two read-modify-write operations are frame-preserving
— a successful `write_host_to_cfg` changes only the HOST key of the DB
section and a successful `write_arn_to_cfg` changes only the ARN key of
the IAM_ROLE section; every other section/option pair reads the same
before and after. -/
theorem write_ops_frame (c : ClusterObj) (r : RedshiftRole) (s : Aws) (cfg : CfgFile) :
    (∀ t cfg₁, c.write_host_to_cfg s cfg = (t, .ok cfg₁) →
      ∀ sec opt, sec ≠ "DB" ∨ optionxform opt ≠ optionxform "HOST" →
        cfgRead cfg₁ sec opt = cfgRead cfg sec opt) ∧
    (∀ t cfg₁, r.write_arn_to_cfg s cfg = (t, .ok cfg₁) →
      ∀ sec opt, sec ≠ "IAM_ROLE" ∨ optionxform opt ≠ optionxform "ARN" →
        cfgRead cfg₁ sec opt = cfgRead cfg sec opt) := by
  constructor
  · intro t cfg₁ h sec opt hne
    obtain ⟨host, hcs⟩ := write_host_ok_inv c s cfg t cfg₁ h
    exact cfgRead_cfgSet_frame cfg "DB" "HOST" host cfg₁ hcs sec opt hne
  · intro t cfg₁ h sec opt hne
    obtain ⟨v, hcs⟩ := write_arn_ok_inv r s cfg t cfg₁ h
    exact cfgRead_cfgSet_frame cfg "IAM_ROLE" "ARN" v cfg₁ hcs sec opt hne

/-- Witness for C10 at concrete inputs: after writing the host, an
option of another section (the cluster identifier) and another key of
the DB section (the user) read unchanged; similarly after writing the
ARN. -/
theorem write_ops_frame_witness :
    (∀ t cfg₁, sampleCluster.write_host_to_cfg pauseBackupState sampleCfg = (t, .ok cfg₁) →
      cfgRead cfg₁ "CLUSTER" "CLUSTER_IDENTIFIER" = cfgRead sampleCfg "CLUSTER" "CLUSTER_IDENTIFIER" ∧
      cfgRead cfg₁ "DB" "USER" = cfgRead sampleCfg "DB" "USER") ∧
    (∀ t cfg₁, boundRole.write_arn_to_cfg pauseBackupState sampleCfg = (t, .ok cfg₁) →
      cfgRead cfg₁ "IAM_ROLE" "NAME" = cfgRead sampleCfg "IAM_ROLE" "NAME") := by
  have h := write_ops_frame sampleCluster boundRole pauseBackupState sampleCfg
  constructor
  · intro t cfg₁ hw
    exact ⟨h.1 t cfg₁ hw "CLUSTER" "CLUSTER_IDENTIFIER" (Or.inl (by decide)),
           h.1 t cfg₁ hw "DB" "USER" (Or.inr (by decide))⟩
  · intro t cfg₁ hw
    exact h.2 t cfg₁ hw "IAM_ROLE" "NAME" (Or.inr (by decide))

theorem find?_append_fresh {α : Type} (l : List α) (p : α → Bool) (x : α)
    (hl : ∀ y ∈ l, p y = false) (hx : p x = true) :
    (l ++ [x]).find? p = some x := by
  induction l with
  | nil => simp [List.find?, hx]
  | cons a as ih =>
      have ha := hl a (by simp)
      simp only [List.cons_append, List.find?_cons, ha]
      exact ih fun y hy => hl y (by simp [hy])

theorem mkRoleArn_ne_empty (n : String) : mkRoleArn n ≠ "" := by
  intro h
  have hlen := congrArg String.length h
  rw [mkRoleArn, String.length_append] at hlen
  have h31 : ("arn:aws:iam::123456789012:role/" : String).length = 31 := rfl
  have h0 : ("" : String).length = 0 := rfl
  omega

theorem mkEndpoint_ne_empty (ci : String) : mkEndpoint ci ≠ "" := by
  intro h
  have hlen := congrArg String.length h
  rw [mkEndpoint, String.length_append] at hlen
  have h45 : (".abc123xyz.us-west-2.redshift.amazonaws.com" : String).length = 43 := rfl
  have h0 : ("" : String).length = 0 := rfl
  omega

theorem cpAttach_roles (s : Aws) (role policy : String) :
    (cpAttachRolePolicy s role policy).roles = s.roles := by
  unfold cpAttachRolePolicy
  split <;> rfl

theorem cpAttach_policies (s : Aws) (role policy : String) :
    (cpAttachRolePolicy s role policy).policies = s.policies := by
  unfold cpAttachRolePolicy
  split <;> rfl

theorem cpAttach_clusters (s : Aws) (role policy : String) :
    (cpAttachRolePolicy s role policy).clusters = s.clusters := by
  unfold cpAttachRolePolicy
  split <;> rfl

theorem db_section_isSome (cfg : CfgFile) (db : DbConfig)
    (h : get_db_config cfg = some db) : (lookupKV cfg "DB").isSome := by
  obtain ⟨hn, -⟩ := get_db_config_fields cfg db h
  unfold cfgRead at hn
  cases hl : lookupKV cfg "DB" with
  | none => rw [hl] at hn; exact Option.noConfusion hn
  | some a => rfl

theorem iam_section_isSome (cfg : CfgFile) (p : String × String)
    (h : get_role_name_arn cfg = some p) : (lookupKV cfg "IAM_ROLE").isSome := by
  obtain ⟨hn, -⟩ := get_role_name_arn_fields cfg p h
  unfold cfgRead at hn
  cases hl : lookupKV cfg "IAM_ROLE" with
  | none => rw [hl] at hn; exact Option.noConfusion hn
  | some a => rfl

theorem availAt_identifier (ci : String) (k : ClusterRes) :
    (availAt ci k).identifier = k.identifier := by
  unfold availAt
  split <;> rfl

/-- Claim C5: the provisioning driver `bin/iac.py` performs its steps in
the strict source order — role create, role wait, ARN recording, policy
attach, policy wait, cluster create, cluster wait, host recording,
ingress opening (the trace lists the control-plane calls in exactly that
order) — and from a fresh state (role name unused, cluster identifier
unused) it ends successfully with the role present under a non-empty
resource id, the cluster `Available`, and the persisted configuration
holding a non-empty host. -/
theorem iac_main_provision (cfg : CfgFile) (s : Aws)
    (n a0 : String) (auth : String × String × String)
    (cc : ClusterConfig) (db : DbConfig) (port numNodes : Nat)
    (hna : get_role_name_arn cfg = some (n, a0))
    (hauth : get_auth cfg = some auth)
    (hcc : get_cluster_config cfg = some cc)
    (hdb : get_db_config cfg = some db)
    (hfreshR : ∀ x ∈ s.roles, x.name ≠ n)
    (hfreshC : ∀ k ∈ s.clusters, k.identifier ≠ cc.clusterIdentifier)
    (hpol : readPolicyArn ∈ s.policies)
    (hport : strToNat? db.port = some port)
    (hnn : strToNat? cc.numNodes = some numNodes) :
    ∃ sF cfgF,
      iacMain cfg s = (provisionTrace n cc db port numNodes, .ok (sF, cfgF)) ∧
      (∃ x ∈ sF.roles, x.name = n ∧ x.arn ≠ "") ∧
      (∃ k ∈ sF.clusters, k.identifier = cc.clusterIdentifier ∧
        k.status = ClusterStatus.available) ∧
      (∃ h, cfgRead cfgF "DB" "HOST" = some h ∧ h ≠ "") := by
  have hrInit : RedshiftRole.mkFromCfg cfg = some ⟨n, a0⟩ := by
    simp [RedshiftRole.mkFromCfg, hna, hauth]
  -- role creation
  have hanyR : (s.roles.any fun x => x.name = n) = false := by
    simp only [List.any_eq_false, decide_eq_true_eq]
    exact hfreshR
  have hcr : cpCreateRole s n = .ok (⟨n, mkRoleArn n⟩, roleCreated s n) := by
    simp [cpCreateRole, hanyR]
  have h1 : RedshiftRole.create ⟨n, a0⟩ s
      = ([.createRole n], .ok (some ⟨n, mkRoleArn n⟩, roleCreated s n)) := by
    simp only [RedshiftRole.create, hcr]
  -- role wait
  have h2 : RedshiftRole.wait_for_role ⟨n, a0⟩ (roleCreated s n)
      = ([.waitRoleExists n], .ok (roleCreated s n)) := by
    simp [RedshiftRole.wait_for_role, waiterRoleExists, roleCreated]
  -- ARN recording
  have hfind1 : List.find? (fun x => x.name = n) (s.roles ++ [(⟨n, mkRoleArn n⟩ : RoleRes)])
      = some ⟨n, mkRoleArn n⟩ := by
    apply find?_append_fresh
    · intro y hy
      simp [hfreshR y hy]
    · simp
  have hgr : cpGetRole (roleCreated s n) n = .ok ⟨n, mkRoleArn n⟩ := by
    unfold cpGetRole roleCreated
    dsimp only
    rw [hfind1]
  have hcsA : cfgSet cfg "IAM_ROLE" "ARN" (mkRoleArn n)
      = some (cfg.map (setSectionEntry "IAM_ROLE" "ARN" (mkRoleArn n))) := by
    simp [cfgSet, iam_section_isSome cfg (n, a0) hna]
  have h3 : RedshiftRole.write_arn_to_cfg ⟨n, a0⟩ (roleCreated s n) cfg
      = ([.getRole n], .ok (cfg.map (setSectionEntry "IAM_ROLE" "ARN" (mkRoleArn n)))) := by
    unfold RedshiftRole.write_arn_to_cfg
    dsimp only
    rw [hgr]
    dsimp only
    rw [hcsA]
  -- policy attach and wait
  have h4 : RedshiftRole.allow_read_access ⟨n, a0⟩ (roleCreated s n)
      = ([.attachPolicy n readPolicyArn],
         .ok (cpAttachRolePolicy (roleCreated s n) n readPolicyArn)) := rfl
  have hpol2 : readPolicyArn
      ∈ (cpAttachRolePolicy (roleCreated s n) n readPolicyArn).policies := by
    rw [cpAttach_policies]
    exact hpol
  have h5 : RedshiftRole.wait_for_policy ⟨n, a0⟩
        (cpAttachRolePolicy (roleCreated s n) n readPolicyArn)
      = ([.waitPolicyExists readPolicyArn],
         .ok (cpAttachRolePolicy (roleCreated s n) n readPolicyArn)) := by
    simp [RedshiftRole.wait_for_policy, waiterPolicyExists, hpol2]
  -- the cluster object read back from the updated configuration
  have hgA : get_auth (cfg.map (setSectionEntry "IAM_ROLE" "ARN" (mkRoleArn n))) = some auth := by
    rw [get_auth_frame cfg _ "IAM_ROLE" "ARN" (mkRoleArn n) hcsA (by decide)]
    exact hauth
  have hgC : get_cluster_config (cfg.map (setSectionEntry "IAM_ROLE" "ARN" (mkRoleArn n)))
      = some cc := by
    rw [get_cluster_config_frame cfg _ "IAM_ROLE" "ARN" (mkRoleArn n) hcsA (by decide)]
    exact hcc
  have hgD : get_db_config (cfg.map (setSectionEntry "IAM_ROLE" "ARN" (mkRoleArn n)))
      = some db := by
    rw [get_db_config_frame cfg _ "IAM_ROLE" "ARN" (mkRoleArn n) hcsA (by decide)]
    exact hdb
  have hgR : get_role_name_arn (cfg.map (setSectionEntry "IAM_ROLE" "ARN" (mkRoleArn n)))
      = some (n, mkRoleArn n) :=
    get_role_name_arn_set_arn cfg _ n a0 (mkRoleArn n) hcsA hna
  have hcInit : ClusterObj.mkFromCfg (cfg.map (setSectionEntry "IAM_ROLE" "ARN" (mkRoleArn n)))
      = some ⟨cc, db, some (mkRoleArn n)⟩ := by
    simp [ClusterObj.mkFromCfg, hgA, hgC, hgD, hgR, mkRoleArn_ne_empty n]
  -- cluster creation
  have hreqid : (clusterReq ⟨cc, db, some (mkRoleArn n)⟩ (mkRoleArn n) port numNodes).identifier
      = cc.clusterIdentifier := rfl
  have hs₂cl : (cpAttachRolePolicy (roleCreated s n) n readPolicyArn).clusters = s.clusters := by
    rw [cpAttach_clusters]
    rfl
  have hanyC : (s.clusters.any fun k => k.identifier = cc.clusterIdentifier) = false := by
    simp only [List.any_eq_false, decide_eq_true_eq]
    exact hfreshC
  have hccC : cpCreateCluster (cpAttachRolePolicy (roleCreated s n) n readPolicyArn)
        (clusterReq ⟨cc, db, some (mkRoleArn n)⟩ (mkRoleArn n) port numNodes)
      = .ok (clusterAdded (cpAttachRolePolicy (roleCreated s n) n readPolicyArn)
          (clusterReq ⟨cc, db, some (mkRoleArn n)⟩ (mkRoleArn n) port numNodes)) := by
    unfold cpCreateCluster
    rw [if_neg]
    rw [hs₂cl]
    simp only [hreqid, hanyC]
    exact Bool.false_ne_true
  have hres : resolveArn ⟨cc, db, some (mkRoleArn n)⟩
        (cfg.map (setSectionEntry "IAM_ROLE" "ARN" (mkRoleArn n)))
      = .ok ⟨cc, db, some (mkRoleArn n)⟩ := by
    simp [resolveArn, truthyOpt, mkRoleArn_ne_empty n]
  have h6 : ClusterObj.create ⟨cc, db, some (mkRoleArn n)⟩
        (cfg.map (setSectionEntry "IAM_ROLE" "ARN" (mkRoleArn n)))
        (cpAttachRolePolicy (roleCreated s n) n readPolicyArn)
      = ([createClusterEvent ⟨cc, db, some (mkRoleArn n)⟩ (mkRoleArn n) port numNodes],
         .ok (some (clusterReq ⟨cc, db, some (mkRoleArn n)⟩ (mkRoleArn n) port numNodes),
              clusterAdded (cpAttachRolePolicy (roleCreated s n) n readPolicyArn)
                (clusterReq ⟨cc, db, some (mkRoleArn n)⟩ (mkRoleArn n) port numNodes))) := by
    simp only [ClusterObj.create, hres]
    rw [hport, hnn]
    dsimp only [Option.getD]
    rw [hccC]
  -- cluster wait
  have hany5 : ((clusterAdded (cpAttachRolePolicy (roleCreated s n) n readPolicyArn)
        (clusterReq ⟨cc, db, some (mkRoleArn n)⟩ (mkRoleArn n) port numNodes)).clusters.any
        fun k => k.identifier = cc.clusterIdentifier) = true := by
    unfold clusterAdded
    dsimp only
    rw [List.any_append]
    simp [hreqid]
  have h7 : ClusterObj.wait ⟨cc, db, some (mkRoleArn n)⟩
        (clusterAdded (cpAttachRolePolicy (roleCreated s n) n readPolicyArn)
          (clusterReq ⟨cc, db, some (mkRoleArn n)⟩ (mkRoleArn n) port numNodes))
      = ([.waitClusterAvailable cc.clusterIdentifier],
         .ok (clustersAvail
           (clusterAdded (cpAttachRolePolicy (roleCreated s n) n readPolicyArn)
             (clusterReq ⟨cc, db, some (mkRoleArn n)⟩ (mkRoleArn n) port numNodes))
           cc.clusterIdentifier)) := by
    unfold ClusterObj.wait waiterClusterAvailable
    dsimp only
    rw [if_pos hany5]
  -- host recording
  have hkavid : (availAt cc.clusterIdentifier
        (clusterReq ⟨cc, db, some (mkRoleArn n)⟩ (mkRoleArn n) port numNodes)).identifier
      = cc.clusterIdentifier := by
    rw [availAt_identifier]
    exact hreqid
  have hkavep : (availAt cc.clusterIdentifier
        (clusterReq ⟨cc, db, some (mkRoleArn n)⟩ (mkRoleArn n) port numNodes)).endpoint
      = some (mkEndpoint cc.clusterIdentifier) := by
    unfold availAt
    rw [if_pos hreqid]
  have hkavst : (availAt cc.clusterIdentifier
        (clusterReq ⟨cc, db, some (mkRoleArn n)⟩ (mkRoleArn n) port numNodes)).status
      = ClusterStatus.available := by
    unfold availAt
    rw [if_pos hreqid]
  have hfind5 : ((clustersAvail
        (clusterAdded (cpAttachRolePolicy (roleCreated s n) n readPolicyArn)
          (clusterReq ⟨cc, db, some (mkRoleArn n)⟩ (mkRoleArn n) port numNodes))
        cc.clusterIdentifier).clusters.find?
        fun k => k.identifier = cc.clusterIdentifier)
      = some (availAt cc.clusterIdentifier
          (clusterReq ⟨cc, db, some (mkRoleArn n)⟩ (mkRoleArn n) port numNodes)) := by
    unfold clustersAvail clusterAdded
    dsimp only
    rw [List.map_append]
    apply find?_append_fresh
    · intro y hy
      obtain ⟨x, hx, hyx⟩ := List.mem_map.mp hy
      subst hyx
      rw [hs₂cl] at hx
      simp [availAt_identifier, hfreshC x hx]
    · simp [hkavid]
  have hdesc5 : cpDescribeCluster (clustersAvail
        (clusterAdded (cpAttachRolePolicy (roleCreated s n) n readPolicyArn)
          (clusterReq ⟨cc, db, some (mkRoleArn n)⟩ (mkRoleArn n) port numNodes))
        cc.clusterIdentifier) cc.clusterIdentifier
      = .ok (availAt cc.clusterIdentifier
          (clusterReq ⟨cc, db, some (mkRoleArn n)⟩ (mkRoleArn n) port numNodes)) := by
    unfold cpDescribeCluster
    rw [hfind5]
  have hprop5 : ClusterObj.properties ⟨cc, db, some (mkRoleArn n)⟩
        (clustersAvail
          (clusterAdded (cpAttachRolePolicy (roleCreated s n) n readPolicyArn)
            (clusterReq ⟨cc, db, some (mkRoleArn n)⟩ (mkRoleArn n) port numNodes))
          cc.clusterIdentifier)
      = ([.describeClusters cc.clusterIdentifier],
         .ok (availAt cc.clusterIdentifier
           (clusterReq ⟨cc, db, some (mkRoleArn n)⟩ (mkRoleArn n) port numNodes))) := by
    unfold ClusterObj.properties
    dsimp only
    rw [hdesc5]
  have hcsB : cfgSet (cfg.map (setSectionEntry "IAM_ROLE" "ARN" (mkRoleArn n))) "DB" "HOST"
        (mkEndpoint cc.clusterIdentifier)
      = some ((cfg.map (setSectionEntry "IAM_ROLE" "ARN" (mkRoleArn n))).map
          (setSectionEntry "DB" "HOST" (mkEndpoint cc.clusterIdentifier))) := by
    simp [cfgSet, db_section_isSome _ db hgD]
  have h8 : ClusterObj.write_host_to_cfg ⟨cc, db, some (mkRoleArn n)⟩
        (clustersAvail
          (clusterAdded (cpAttachRolePolicy (roleCreated s n) n readPolicyArn)
            (clusterReq ⟨cc, db, some (mkRoleArn n)⟩ (mkRoleArn n) port numNodes))
          cc.clusterIdentifier)
        (cfg.map (setSectionEntry "IAM_ROLE" "ARN" (mkRoleArn n)))
      = ([.describeClusters cc.clusterIdentifier],
         .ok ((cfg.map (setSectionEntry "IAM_ROLE" "ARN" (mkRoleArn n))).map
           (setSectionEntry "DB" "HOST" (mkEndpoint cc.clusterIdentifier)))) := by
    unfold ClusterObj.write_host_to_cfg
    rw [hprop5]
    dsimp only
    rw [hkavep]
    dsimp only
    rw [hcsB]
  -- ingress
  have h9 : ClusterObj.open_tpc ⟨cc, db, some (mkRoleArn n)⟩
        (clustersAvail
          (clusterAdded (cpAttachRolePolicy (roleCreated s n) n readPolicyArn)
            (clusterReq ⟨cc, db, some (mkRoleArn n)⟩ (mkRoleArn n) port numNodes))
          cc.clusterIdentifier)
      = ([.describeClusters cc.clusterIdentifier, .authorizeIngress port],
         .ok (ingressAdded
           (clustersAvail
             (clusterAdded (cpAttachRolePolicy (roleCreated s n) n readPolicyArn)
               (clusterReq ⟨cc, db, some (mkRoleArn n)⟩ (mkRoleArn n) port numNodes))
             cc.clusterIdentifier) port)) := by
    unfold ClusterObj.open_tpc
    rw [hprop5]
    dsimp only
    rw [hport]
    rfl
  -- the final summary
  have hdesc6 : cpDescribeCluster (ingressAdded
        (clustersAvail
          (clusterAdded (cpAttachRolePolicy (roleCreated s n) n readPolicyArn)
            (clusterReq ⟨cc, db, some (mkRoleArn n)⟩ (mkRoleArn n) port numNodes))
          cc.clusterIdentifier) port) cc.clusterIdentifier
      = .ok (availAt cc.clusterIdentifier
          (clusterReq ⟨cc, db, some (mkRoleArn n)⟩ (mkRoleArn n) port numNodes)) := by
    unfold cpDescribeCluster ingressAdded
    dsimp only
    rw [hfind5]
  have h10 : ClusterObj.summary ⟨cc, db, some (mkRoleArn n)⟩
        (ingressAdded
          (clustersAvail
            (clusterAdded (cpAttachRolePolicy (roleCreated s n) n readPolicyArn)
              (clusterReq ⟨cc, db, some (mkRoleArn n)⟩ (mkRoleArn n) port numNodes))
            cc.clusterIdentifier) port)
      = ([.describeClusters cc.clusterIdentifier], .ok ()) := by
    unfold ClusterObj.summary ClusterObj.properties
    dsimp only
    rw [hdesc6]
    dsimp only
    rw [hkavep]
  -- composing the driver
  refine ⟨ingressAdded
      (clustersAvail
        (clusterAdded (cpAttachRolePolicy (roleCreated s n) n readPolicyArn)
          (clusterReq ⟨cc, db, some (mkRoleArn n)⟩ (mkRoleArn n) port numNodes))
        cc.clusterIdentifier) port,
    (cfg.map (setSectionEntry "IAM_ROLE" "ARN" (mkRoleArn n))).map
      (setSectionEntry "DB" "HOST" (mkEndpoint cc.clusterIdentifier)), ?_, ?_, ?_, ?_⟩
  · unfold iacMain
    rw [hrInit]
    dsimp only
    rw [h1]
    dsimp only
    rw [h2]
    dsimp only
    rw [h3]
    dsimp only
    rw [h4]
    dsimp only
    rw [h5]
    dsimp only
    rw [hcInit]
    dsimp only
    rw [h6]
    dsimp only
    rw [h7]
    dsimp only
    rw [h8]
    dsimp only
    rw [h9]
    dsimp only
    rw [h10]
    rfl
  · refine ⟨⟨n, mkRoleArn n⟩, ?_, rfl, mkRoleArn_ne_empty n⟩
    show (⟨n, mkRoleArn n⟩ : RoleRes) ∈ (ingressAdded _ port).roles
    unfold ingressAdded clustersAvail clusterAdded
    dsimp only
    rw [cpAttach_roles]
    unfold roleCreated
    dsimp only
    simp
  · refine ⟨availAt cc.clusterIdentifier
        (clusterReq ⟨cc, db, some (mkRoleArn n)⟩ (mkRoleArn n) port numNodes),
      ?_, hkavid, hkavst⟩
    unfold ingressAdded clustersAvail clusterAdded
    dsimp only
    rw [List.map_append]
    simp
  · exact ⟨mkEndpoint cc.clusterIdentifier,
      cfgRead_cfgSet_self _ "DB" "HOST" _ _ hcsB,
      mkEndpoint_ne_empty cc.clusterIdentifier⟩

/-- Witness for C5: a full provisioning run from the sample
configuration file and a fresh control plane succeeds end to end with
the claimed trace. -/
theorem iac_main_provision_witness :
    ∃ sF cfgF,
      iacMain sampleCfg freshAws
        = (provisionTrace "dwhRole" ⟨"multi-node", "4", "dc2.large", "dwhcluster"⟩
            ⟨"dwh", "dwhuser", "Passw0rd", "5439", ""⟩ 5439 4, .ok (sF, cfgF)) ∧
      (∃ x ∈ sF.roles, x.name = "dwhRole" ∧ x.arn ≠ "") ∧
      (∃ k ∈ sF.clusters,
        k.identifier = ClusterConfig.clusterIdentifier
            ⟨"multi-node", "4", "dc2.large", "dwhcluster"⟩ ∧
        k.status = ClusterStatus.available) ∧
      (∃ h, cfgRead cfgF "DB" "HOST" = some h ∧ h ≠ "") :=
  iac_main_provision sampleCfg freshAws "dwhRole" "" ("AKIA", "SECRET", "us-west-2")
    ⟨"multi-node", "4", "dc2.large", "dwhcluster"⟩ ⟨"dwh", "dwhuser", "Passw0rd", "5439", ""⟩
    5439 4 (by decide) (by decide) (by decide) (by decide) (by simp [freshAws])
    (by simp [freshAws]) (by decide) (by decide) (by decide)

end DWH
